import Mathlib

/-!
Shallow embedding of the single-file Flask application `src/app.py`
(a dummy login page: three routes `GET /`, `POST /login`, `POST /logout`,
one hard-coded credential record, cookie-session login state).

Conventions of the embedding:
* A parsed request body (the result of `request.get_json(silent=True)`) is
  an `Option JVal`: `none` stands for an unparseable body, `some v` for a
  body that parsed to the JSON value `v`.
* The per-client session is reduced to the one key the program uses:
  `Session := Option String` is the value stored under `session["user"]`
  (`none` when the key is absent).
* A handler's outcome is a `HandlerResult`: either an explicit
  `(status, json-body)` response built with `jsonify`, or an uncaught
  Python exception (which the hosting framework turns into a 500).
-/

/-- JSON-like values as returned by `request.get_json`. -/
inductive JVal where
  | jnull
  | jbool (b : Bool)
  | jnum  (n : Int)
  | jstr  (s : String)
  | jarr  (elems : List JVal)
  | jobj  (fields : List (String × JVal))
deriving Repr

/-- Python truthiness of a JSON value (what `if not data:` tests):
`None`, `False`, `0`, `""`, `[]` and the empty object are falsy. -/
def pyTruthy : JVal → Bool
  | .jnull    => false
  | .jbool b  => b
  | .jnum n   => n != 0
  | .jstr s   => s != ""
  | .jarr l   => !l.isEmpty
  | .jobj l   => !l.isEmpty

/-- First value bound to `key` in an association list of JSON object fields. -/
def lookupField (fields : List (String × JVal)) (key : String) : Option JVal :=
  (fields.find? (fun kv => kv.1 == key)).map (fun kv => kv.2)

/-- Python `data.get(key, default)`: defined only when `data` is a dict
(a JSON object); on any other value the attribute access raises
`AttributeError`, modelled by `none`. -/
def dictGet (data : JVal) (key : String) (dflt : JVal) : Option JVal :=
  match data with
  | .jobj fields => some ((lookupField fields key).getD dflt)
  | _ => none

/-- Python `str.strip()` with no arguments: remove leading and trailing
whitespace characters. Defined on the character list of the string. -/
def stripString (s : String) : String :=
  String.mk (((s.data.dropWhile Char.isWhitespace).reverse.dropWhile
      Char.isWhitespace).reverse)

/-- Python `.strip()` on a JSON value: defined only on strings; on any
other value the attribute access raises `AttributeError`, modelled by
`none`. -/
def pyStrip : JVal → Option String
  | .jstr s => some (stripString s)
  | _ => none

/-- The hard-coded user record (`USER` in `src/app.py`): username. -/
def USER_username : String := "admin"

/-- The plaintext whose salted hash is stored as `USER["password_hash"]`
(`generate_password_hash("password123")` in `src/app.py`). -/
def USER_password : String := "password123"

/-- Modelled werkzeug library behavior: `check_password_hash(pwhash, p)`
succeeds exactly when `p` is the string the stored salted hash was
generated from; the stored hash is represented by that original string.
Passing a non-string candidate raises `AttributeError` inside the
library (the candidate gets `.encode`d), modelled by `none`. -/
def check_password_hash (original : String) (candidate : JVal) : Option Bool :=
  match candidate with
  | .jstr p => some (p == original)
  | _ => none

/-- The session as the program uses it: the value under `session["user"]`,
`none` when the key is absent. -/
abbrev Session := Option String

/-- Outcome of a request handler: an explicit `(status, jsonified body)`
response, or an uncaught Python exception. -/
inductive HandlerResult where
  | response (status : Nat) (body : List (String × JVal))
  | exception (msg : String)
deriving Repr

/-- `jsonify({"error": msg})`. -/
def jsonError (msg : String) : List (String × JVal) := [("error", .jstr msg)]

/-- HTTP status the client observes: an uncaught exception becomes a
500 Internal Server Error at the framework boundary. -/
def effectiveStatus : HandlerResult → Nat
  | .response s _ => s
  | .exception _ => 500

/-- Whether the observed response carries a JSON body with an `error` field. -/
def hasErrorField : HandlerResult → Bool
  | .response _ b => (lookupField b "error").isSome
  | .exception _ => false

/-- The `login` view function (`src/app.py` lines 156-180), line by line:

    data = request.get_json(silent=True)
    if not data: return jsonify({"error": "Invalid request body, JSON expected."}), 400
    username = data.get("username", "").strip()
    password = data.get("password", "")
    if not username or not password:
        return jsonify({"error": "Username and password are required."}), 400
    if username != USER["username"]:
        return jsonify({"error": "Invalid credentials."}), 401
    if not check_password_hash(USER["password_hash"], password):
        return jsonify({"error": "Invalid credentials."}), 401
    session["user"] = username
    return jsonify({"message": "Logged in", "username": username}), 200

The session argument is the state of `session["user"]` before the request;
the second component of the result is its state afterwards. -/
def login (body : Option JVal) (sess : Session) : HandlerResult × Session :=
  match body with
  | none => (.response 400 (jsonError "Invalid request body, JSON expected."), sess)
  | some data =>
    if pyTruthy data = false then
      (.response 400 (jsonError "Invalid request body, JSON expected."), sess)
    else
      match dictGet data "username" (.jstr "") with
      | none => (.exception "AttributeError", sess)
      | some uval =>
        match pyStrip uval with
        | none => (.exception "AttributeError", sess)
        | some username =>
          match dictGet data "password" (.jstr "") with
          | none => (.exception "AttributeError", sess)
          | some password =>
            if username = "" ∨ pyTruthy password = false then
              (.response 400 (jsonError "Username and password are required."), sess)
            else if username ≠ USER_username then
              (.response 401 (jsonError "Invalid credentials."), sess)
            else
              match check_password_hash USER_password password with
              | none => (.exception "AttributeError", sess)
              | some ok =>
                if ok then
                  (.response 200 [("message", .jstr "Logged in"),
                                  ("username", .jstr username)], some username)
                else
                  (.response 401 (jsonError "Invalid credentials."), sess)

/-- The `logout` view function (`src/app.py` lines 183-189):
`session.pop("user", None)` then 200 `{"message": "Logged out"}`. -/
def logout (sess : Session) : HandlerResult × Session :=
  (.response 200 [("message", .jstr "Logged out")], none)

/-- What `GET /` renders that depends on state: which panel is visible
and the username interpolated into the welcome text. -/
structure Page where
  loggedIn : Bool
  username : String
deriving Repr, DecidableEq

/-- The `index` view function (`src/app.py` lines 38-45):
`logged_in = session.get("user") == USER["username"]`;
`username = session.get("user") if logged_in else ""`; the template shows
the welcome panel iff `logged_in` (login panel otherwise). -/
def index (sess : Session) : Page :=
  let logged_in := sess == some USER_username
  { loggedIn := logged_in
    username := if logged_in then sess.getD "" else "" }

/-- `app.secret_key = secrets.token_urlsafe(32)` (`src/app.py` line 28):
the session-signing secret is a fresh random token generated at process
start; no environment variable is consulted. `env` is the process
environment (name ↦ value), `randomToken` the value produced by
`secrets.token_urlsafe(32)` at startup. -/
def secret_key_init (env : String → Option String) (randomToken : String) : String :=
  randomToken

/-- The property C9 asserts of `secret_key_init`, stated from the spec's
words: some environment variable name configures the secret, with the
random token used only as a fallback when that variable is unset. -/
def secretConfigurableViaEnv : Prop :=
  ∃ name : String,
    (∀ env : String → Option String, ∀ tok s : String,
        env name = some s → secret_key_init env tok = s) ∧
    (∀ env : String → Option String, ∀ tok : String,
        env name = none → secret_key_init env tok = tok)

/-- A login request whose body is the JSON object
`{"username": u, "password": p}` (what the page's script submits). -/
def credRequest (u p : String) : Option JVal :=
  some (.jobj [("username", .jstr u), ("password", .jstr p)])

/-- A login request body carrying the `username` and/or `password` fields
(as strings) only when present: `optFieldsBody none (some p)` is
`{"password": p}`, `optFieldsBody none none` is `{}`, and so on. -/
def optFieldsBody (uOpt pOpt : Option String) : Option JVal :=
  some (.jobj ((uOpt.toList.map (fun u => ("username", JVal.jstr u))) ++
               (pOpt.toList.map (fun p => ("password", JVal.jstr p)))))

/-- Full characterization of `login` on a request body of the form
`{"username": u, "password": p}` with string fields, for any prior
session state. -/
theorem login_credRequest_eq (u p : String) (sess : Session) :
    login (credRequest u p) sess =
      if stripString u = "" ∨ p = "" then
        (.response 400 (jsonError "Username and password are required."), sess)
      else if stripString u = USER_username then
        if p = USER_password then
          (.response 200 [("message", .jstr "Logged in"),
                          ("username", .jstr (stripString u))],
           some (stripString u))
        else (.response 401 (jsonError "Invalid credentials."), sess)
      else (.response 401 (jsonError "Invalid credentials."), sess) := by
  simp only [login, credRequest, pyTruthy, dictGet, lookupField, pyStrip,
    check_password_hash, List.find?, List.isEmpty]
  norm_num
  split_ifs <;> simp_all [USER_username, USER_password, jsonError]

/-- A body that parses to a Python-falsy value (empty object, empty
array, empty string, `0`, `false`, `null`) takes the same 400 branch as
an unparseable body: the guard is `if not data:`. -/
theorem login_falsy (v : JVal) (sess : Session) (hv : pyTruthy v = false) :
    login (some v) sess =
      (.response 400 (jsonError "Invalid request body, JSON expected."), sess) := by
  simp [login, hv]

/-- A JSON object without a `username` field: the field defaults to
`""`, which trims to `""`, so the 400 missing-credentials branch is
taken. -/
theorem login_missing_username (p : String) (sess : Session) :
    login (some (.jobj [("password", .jstr p)])) sess =
      (.response 400 (jsonError "Username and password are required."), sess) := rfl

/-- A JSON object without a `password` field: the field defaults to
`""`, which is falsy, so the 400 missing-credentials branch is
taken. -/
theorem login_missing_password (u : String) (sess : Session) :
    login (some (.jobj [("username", .jstr u)])) sess =
      (.response 400 (jsonError "Username and password are required."), sess) := by
  have h2 : dictGet (JVal.jobj [("username", JVal.jstr u)]) "username" (JVal.jstr "")
      = some (JVal.jstr u) := rfl
  have h3 : dictGet (JVal.jobj [("username", JVal.jstr u)]) "password" (JVal.jstr "")
      = some (JVal.jstr "") := rfl
  simp [login, h2, h3, pyStrip, pyTruthy]

/-- Whenever `login` answers 200, the session it leaves behind is
exactly `some USER_username`. -/
theorem login_success_session (body : Option JVal) (sess : Session)
    (h200 : effectiveStatus (login body sess).1 = 200) :
    (login body sess).2 = some USER_username := by
  rcases hres : login body sess with ⟨res, sess2⟩
  rw [hres] at h200
  cases body with
  | none =>
    rw [login, Prod.mk.injEq] at hres
    obtain ⟨h1, h2⟩ := hres
    subst h1; subst h2
    simp [effectiveStatus] at h200
  | some data =>
    rw [login] at hres
    repeat' split at hres
    all_goals rw [Prod.mk.injEq] at hres
    all_goals obtain ⟨h1, h2⟩ := hres
    all_goals subst h1
    all_goals subst h2
    all_goals simp_all [effectiveStatus]

/-- Claim C1, counterexample: the request pair `(" admin", "password123")`
differs from `("admin", "password123")` yet also gets HTTP 200 with body
`{message: "Logged in", username: "admin"}`, because the handler trims
the username before comparing. -/
theorem c1_counterexample :
    ((" admin", "password123") : String × String) ≠ ("admin", "password123") ∧
    login (credRequest " admin" "password123") none =
      (.response 200 [("message", .jstr "Logged in"), ("username", .jstr "admin")],
       some "admin") :=
  ⟨by decide, rfl⟩

/-- Claim C1, amended: a `(username, password)` request pair returns
HTTP 200 with body `{message: "Logged in", username: "admin"}` exactly
when the username trims to `"admin"` and the password is
`"password123"`; every other pair returns a non-200 status. -/
theorem c1_success_iff_trimmed_admin (u p : String) (sess : Session) :
    (login (credRequest u p) sess).1 =
        .response 200 [("message", .jstr "Logged in"), ("username", .jstr "admin")]
      ↔ (stripString u = "admin" ∧ p = "password123") := by
  rw [login_credRequest_eq]
  split_ifs with h1 h2 h3 <;> simp_all [USER_username, USER_password]
  intro hadmin hp
  rcases h1 with h | h
  · rw [hadmin] at h
    exact absurd h (by decide)
  · rw [hp] at h
    exact absurd h (by decide)

/-- Claim C2, counterexample: the body `{}` is parseable structured
data, so by the claimed check order it should fail the
missing-credentials check (step 2); instead the handler returns the
step-1 `InvalidRequest` error, because its first guard is `if not
data:`, which also fires on a parseable-but-falsy body. -/
theorem c2_counterexample :
    (some (JVal.jobj []) : Option JVal) ≠ none ∧
    (login (some (.jobj [])) none).1 =
      .response 400 (jsonError "Invalid request body, JSON expected.") ∧
    (login (some (.jobj [])) none).1 ≠
      .response 400 (jsonError "Username and password are required.") := by
  refine ⟨by simp, rfl, ?_⟩
  intro h
  rw [show (login (some (JVal.jobj [])) none).1
        = .response 400 (jsonError "Invalid request body, JSON expected.") from rfl] at h
  simp [jsonError] at h

/-- Claim C2, amended: the login handler applies its checks in order,
stopping at the first failure: (1) a body that is unparseable or parses
to a falsy value (such as the empty object) returns 400 InvalidRequest;
for a body with string `username`/`password` fields: (2) empty trimmed
username or empty password returns 400 MissingCredentials, (3) a
username other than the stored one returns 401, (4) a password that
fails verification returns 401, and otherwise it succeeds with 200. -/
theorem c2_check_order (u p : String) (v : JVal) (sess : Session)
    (hv : pyTruthy v = false) :
    (login none sess).1 = .response 400 (jsonError "Invalid request body, JSON expected.") ∧
    (login (some v) sess).1 = .response 400 (jsonError "Invalid request body, JSON expected.") ∧
    (login (credRequest u p) sess).1 =
      (if stripString u = "" ∨ p = "" then
        .response 400 (jsonError "Username and password are required.")
      else if stripString u ≠ USER_username then
        .response 401 (jsonError "Invalid credentials.")
      else if p ≠ USER_password then
        .response 401 (jsonError "Invalid credentials.")
      else
        .response 200 [("message", .jstr "Logged in"),
                       ("username", .jstr (stripString u))]) := by
  refine ⟨rfl, ?_, ?_⟩
  · rw [login_falsy v sess hv]
  · rw [login_credRequest_eq]
    split_ifs <;> simp_all

/-- Claim C2, witness: the amended order theorem applied at the
concrete falsy body `{}`. -/
theorem c2_witness :
    pyTruthy (JVal.jobj []) = false ∧
    (login (some (JVal.jobj [])) none).1 =
      .response 400 (jsonError "Invalid request body, JSON expected.") :=
  ⟨by decide, (c2_check_order "a" "b" (JVal.jobj []) none (by decide)).2.1⟩

/-- Claim C3 (confirmed): after any successful login the page renderer
shows the welcome panel with the stored username for that session;
after a subsequent logout it shows the anonymous login panel; and in
general the welcome panel is selected iff the session user equals the
static record's username. -/
theorem c3_page_reflects_session (body : Option JVal) (sess : Session)
    (h200 : effectiveStatus (login body sess).1 = 200) :
    index (login body sess).2 = { loggedIn := true, username := USER_username } ∧
    index (logout (login body sess).2).2 = { loggedIn := false, username := "" } ∧
    (∀ s : Session, (index s).loggedIn = true ↔ s = some USER_username) := by
  have hs := login_success_session body sess h200
  rw [hs]
  refine ⟨by simp [index], by simp [logout, index], ?_⟩
  intro s
  cases s <;> simp [index]

/-- Claim C3, witness: instantiated at the concrete successful login
request `{"username": "admin", "password": "password123"}`. -/
theorem c3_witness :
    effectiveStatus (login (credRequest "admin" "password123") none).1 = 200 ∧
    index (login (credRequest "admin" "password123") none).2 =
      { loggedIn := true, username := USER_username } ∧
    index (logout (login (credRequest "admin" "password123") none).2).2 =
      { loggedIn := false, username := "" } :=
  ⟨rfl, (c3_page_reflects_session (credRequest "admin" "password123") none rfl).1,
    (c3_page_reflects_session (credRequest "admin" "password123") none rfl).2.1⟩

/-- Claim C4 (confirmed): a credentials submission that passes
validation but has a non-matching username, and one with the matching
username but a wrong password, produce literally the same response:
401 with body `{"error": "Invalid credentials."}` — the two failure
causes are indistinguishable from the response. -/
theorem c4_indistinguishable_failures (u1 p1 u2 p2 : String) (sess1 sess2 : Session)
    (hu1 : stripString u1 ≠ "") (hp1 : p1 ≠ "")
    (hmis : stripString u1 ≠ USER_username)
    (hu2 : stripString u2 = USER_username) (hp2 : p2 ≠ "")
    (hwrong : p2 ≠ USER_password) :
    (login (credRequest u1 p1) sess1).1 = .response 401 (jsonError "Invalid credentials.") ∧
    (login (credRequest u2 p2) sess2).1 = .response 401 (jsonError "Invalid credentials.") := by
  rw [login_credRequest_eq, login_credRequest_eq]
  constructor <;> split_ifs <;> simp_all [USER_username, USER_password]

/-- Claim C4, witness: concrete wrong-username and wrong-password
requests both get the identical 401 response. -/
theorem c4_witness :
    (login (credRequest "bob" "hunter2") none).1 =
      .response 401 (jsonError "Invalid credentials.") ∧
    (login (credRequest "admin" "hunter2") (some "x")).1 =
      .response 401 (jsonError "Invalid credentials.") :=
  c4_indistinguishable_failures "bob" "hunter2" "admin" "hunter2" none (some "x")
    (by decide) (by decide) (by decide) (by decide) (by decide) (by decide)

/-- Claim C5 (confirmed): `logout` is total and idempotent: for every
session state it returns 200 with a confirmation message, leaves a
session with no authenticated marker, and running it twice equals
running it once. -/
theorem c5_logout_idempotent (sess : Session) :
    logout sess = (.response 200 [("message", .jstr "Logged out")], none) ∧
    (logout sess).2 = none ∧
    logout (logout sess).2 = logout sess :=
  ⟨rfl, rfl, rfl⟩

/-- Claim C6 (confirmed): a login body missing the username or password
field, or whose username is empty after trimming, or whose password is
empty, gets status 400 with an `error` field in the JSON body. -/
theorem c6_missing_creds_400 (uOpt pOpt : Option String) (sess : Session)
    (h : stripString (uOpt.getD "") = "" ∨ pOpt.getD "" = "") :
    effectiveStatus (login (optFieldsBody uOpt pOpt) sess).1 = 400 ∧
    hasErrorField (login (optFieldsBody uOpt pOpt) sess).1 = true := by
  rcases uOpt with _ | u <;> rcases pOpt with _ | p
  · rw [show optFieldsBody none none = some (.jobj []) from rfl,
        login_falsy _ sess (by decide)]
    exact ⟨rfl, rfl⟩
  · rw [show optFieldsBody none (some p) = some (.jobj [("password", .jstr p)]) from rfl,
        login_missing_username p sess]
    exact ⟨rfl, rfl⟩
  · rw [show optFieldsBody (some u) none = some (.jobj [("username", .jstr u)]) from rfl,
        login_missing_password u sess]
    exact ⟨rfl, rfl⟩
  · rw [show optFieldsBody (some u) (some p) = credRequest u p from rfl,
        login_credRequest_eq,
        if_pos (show stripString u = "" ∨ p = "" from h)]
    exact ⟨rfl, rfl⟩

/-- Claim C6, witness: the concrete body `{"username": "",
"password": "x"}` gets a 400 with an `error` field. -/
theorem c6_witness :
    (stripString ((some "").getD "") = "" ∨ ((some "x" : Option String).getD "") = "") ∧
    effectiveStatus (login (optFieldsBody (some "") (some "x")) none).1 = 400 ∧
    hasErrorField (login (optFieldsBody (some "") (some "x")) none).1 = true :=
  ⟨by decide, (c6_missing_creds_400 (some "") (some "x") none (by decide)).1,
    (c6_missing_creds_400 (some "") (some "x") none (by decide)).2⟩

/-- Claim C7 (confirmed): a request whose body is not valid JSON
(`get_json(silent=True)` returns `None`) gets HTTP 400 with a JSON
error body, never a server error (5xx). -/
theorem c7_nonjson_body_400 (sess : Session) :
    (login none sess).1 = .response 400 (jsonError "Invalid request body, JSON expected.") ∧
    effectiveStatus (login none sess).1 = 400 ∧
    ¬ 500 ≤ effectiveStatus (login none sess).1 :=
  ⟨rfl, rfl, by norm_num [login, effectiveStatus]⟩

/-- Claim C8, counterexample: the JSON body
`{"username": 1, "password": "x"}` makes the handler raise an uncaught
`AttributeError` (a number has no `.strip`), which surfaces as a 500,
not as structured 4xx JSON. -/
theorem c8_counterexample :
    login (some (.jobj [("username", .jnum 1), ("password", .jstr "x")])) none =
      (.exception "AttributeError", none) ∧
    effectiveStatus
      (login (some (.jobj [("username", .jnum 1), ("password", .jstr "x")])) none).1 = 500 :=
  ⟨rfl, rfl⟩

/-- Claim C8, amended: restricted to bodies that are unparseable, falsy
(such as `{}`), or JSON objects whose `username`/`password` fields are
strings when present, every outcome is either a 200 success or a
structured 4xx JSON error with an `error` field; bodies with non-string
fields fall outside this guarantee (see the counterexample). -/
theorem c8_handled_errors (uOpt pOpt : Option String) (sess : Session) :
    (effectiveStatus (login none sess).1 = 400 ∧ hasErrorField (login none sess).1 = true) ∧
    (effectiveStatus (login (some (.jobj [])) sess).1 = 400 ∧
      hasErrorField (login (some (.jobj [])) sess).1 = true) ∧
    (effectiveStatus (login (optFieldsBody uOpt pOpt) sess).1 = 200 ∨
      ((effectiveStatus (login (optFieldsBody uOpt pOpt) sess).1 = 400 ∨
        effectiveStatus (login (optFieldsBody uOpt pOpt) sess).1 = 401) ∧
       hasErrorField (login (optFieldsBody uOpt pOpt) sess).1 = true)) := by
  refine ⟨⟨rfl, rfl⟩, ?_, ?_⟩
  · rw [login_falsy _ sess (by decide)]
    exact ⟨rfl, rfl⟩
  · rcases uOpt with _ | u <;> rcases pOpt with _ | p
    · rw [show optFieldsBody none none = some (.jobj []) from rfl,
          login_falsy _ sess (by decide)]
      exact Or.inr ⟨Or.inl rfl, rfl⟩
    · rw [show optFieldsBody none (some p) = some (.jobj [("password", .jstr p)]) from rfl,
          login_missing_username p sess]
      exact Or.inr ⟨Or.inl rfl, rfl⟩
    · rw [show optFieldsBody (some u) none = some (.jobj [("username", .jstr u)]) from rfl,
          login_missing_password u sess]
      exact Or.inr ⟨Or.inl rfl, rfl⟩
    · rw [show optFieldsBody (some u) (some p) = credRequest u p from rfl,
          login_credRequest_eq]
      split_ifs
      · exact Or.inr ⟨Or.inl rfl, rfl⟩
      · exact Or.inl rfl
      · exact Or.inr ⟨Or.inr rfl, rfl⟩
      · exact Or.inr ⟨Or.inr rfl, rfl⟩

/-- Claim C9, counterexample: no environment variable name configures
the session-signing secret — the initialization ignores the
environment entirely. -/
theorem c9_counterexample : ¬ secretConfigurableViaEnv := by
  rintro ⟨name, hset, -⟩
  have h := hset (fun _ => some "envvalue") "tok" "envvalue" rfl
  simp [secret_key_init] at h

/-- Claim C9, amended: the session-cookie signing secret is always the
random token generated at process start, whatever the environment
holds. -/
theorem c9_random_secret (env : String → Option String) (tok : String) :
    secret_key_init env tok = tok := rfl

/-- Claim C10 (confirmed): every failing (non-200) login request leaves
the session state exactly as it was: no error path writes to the
session. -/
theorem c10_failure_preserves_session (body : Option JVal) (sess : Session)
    (hfail : effectiveStatus (login body sess).1 ≠ 200) :
    (login body sess).2 = sess := by
  rcases hres : login body sess with ⟨res, sess2⟩
  rw [hres] at hfail
  cases body with
  | none =>
    rw [login, Prod.mk.injEq] at hres
    obtain ⟨h1, h2⟩ := hres
    exact h2.symm
  | some data =>
    rw [login] at hres
    repeat' split at hres
    all_goals rw [Prod.mk.injEq] at hres
    all_goals obtain ⟨h1, h2⟩ := hres
    all_goals subst h1
    all_goals subst h2
    all_goals simp_all [effectiveStatus]

/-- Claim C10, witness: a failing login with an unparseable body leaves
a previously authenticated session authenticated. -/
theorem c10_witness :
    effectiveStatus (login none (some "alice")).1 ≠ 200 ∧
    (login none (some "alice")).2 = some "alice" :=
  ⟨by decide, c10_failure_preserves_session none (some "alice") (by decide)⟩
